import Mathlib

/-!
Shallow embedding of the snake game core (src/snake.py and src/snake_game.py).

The two source files contain the same game logic; `snake_game.py` carries the
grid dimensions as fields (`grid_w`, `grid_h`) while `snake.py` reads the
module constants `WINDOW_WIDTH // GRID_SIZE = 32` and
`WINDOW_HEIGHT // GRID_SIZE = 24`.  We embed the parametric version; the
fixed-window file is the instance `grid_w = 32`, `grid_h = 24`.

Randomness (`random.randint`) is made explicit as a supply
`Nat → Nat × Nat` of raw draws; `random.randint(0, n-1)` yields exactly the
values `0 .. n-1`, which we realise as `draw % n`.  The unbounded
`while True` loop of `Food.respawn` is embedded with explicit fuel: the
model returns `none` exactly when the loop has not exited within `fuel`
iterations, for any fuel.
-/

namespace SnakeGame

/-- A grid cell: integer pair (col, row) in grid units. -/
structure Cell where
  x : Int
  y : Int
  deriving DecidableEq, Repr

/-- The `GameState` enum of both source files. -/
inductive GameState where
  | INSTRUCTIONS
  | PLAYING
  | GAME_OVER
  deriving DecidableEq, Repr

/-- The `Direction` enum of both source files. -/
inductive Direction where
  | UP
  | DOWN
  | LEFT
  | RIGHT
  deriving DecidableEq, Repr

/-- The tuple value of each `Direction` member: its unit delta. -/
def Direction.value : Direction → Int × Int
  | .UP => (0, -1)
  | .DOWN => (0, 1)
  | .LEFT => (-1, 0)
  | .RIGHT => (1, 0)

/-- The `Snake` class: body list (head first), direction, growth flag, and
the grid dimensions stored on the snake in `snake_game.py` (in `snake.py`
they are the constants 32 and 24). -/
structure Snake where
  body : List Cell
  direction : Direction
  grow_pending : Bool
  grid_w : Nat
  grid_h : Nat
  deriving DecidableEq, Repr

/-- `Snake.__init__(start_x, start_y, grid_w, grid_h)`. -/
def Snake.init (start_x start_y : Int) (grid_w grid_h : Nat) : Snake :=
  { body := [⟨start_x, start_y⟩]
    direction := .RIGHT
    grow_pending := false
    grid_w := grid_w
    grid_h := grid_h }

/-- The `new_head` computed inside `Snake.move` (head plus direction delta);
`none` on an empty body, which the program never constructs. -/
def Snake.new_head (s : Snake) : Option Cell :=
  match s.body with
  | [] => none
  | hd :: _ => some ⟨hd.x + s.direction.value.1, hd.y + s.direction.value.2⟩

/-- `Snake.move`: prepend the new head; pop the tail unless growth is
pending, in which case keep it and clear the flag.  An empty body (never
constructed by the program: `body[0]` would raise) is left unchanged. -/
def Snake.move (s : Snake) : Snake :=
  match s.body with
  | [] => s
  | hd :: rest =>
    let newHead : Cell := ⟨hd.x + s.direction.value.1, hd.y + s.direction.value.2⟩
    let body2 := newHead :: hd :: rest
    if !s.grow_pending then
      { s with body := body2.dropLast }
    else
      { s with body := body2, grow_pending := false }

/-- `Snake.change_direction`: refuse the exact opposite of the current
direction (the four explicit pairs of the source), otherwise update. -/
def Snake.change_direction (s : Snake) (new_direction : Direction) : Snake :=
  if (s.direction = .UP ∧ new_direction = .DOWN) ∨
     (s.direction = .DOWN ∧ new_direction = .UP) ∨
     (s.direction = .LEFT ∧ new_direction = .RIGHT) ∨
     (s.direction = .RIGHT ∧ new_direction = .LEFT) then
    s
  else
    { s with direction := new_direction }

/-- `Snake.grow`: arm the growth flag for the next move. -/
def Snake.grow (s : Snake) : Snake :=
  { s with grow_pending := true }

/-- `Snake.check_collision`: wall test on the head, then membership of the
head in `body[1:]`.  Empty body is unreachable in the program. -/
def Snake.check_collision (s : Snake) : Bool :=
  match s.body with
  | [] => false
  | hd :: rest =>
    if hd.x < 0 ∨ hd.x ≥ (s.grid_w : Int) ∨ hd.y < 0 ∨ hd.y ≥ (s.grid_h : Int) then
      true
    else if hd ∈ rest then
      true
    else
      false

/-- `Snake.get_positions`: a copy of the body list. -/
def Snake.get_positions (s : Snake) : List Cell :=
  s.body

/-- The `Food` class: grid dimensions and current position. -/
structure Food where
  grid_w : Nat
  grid_h : Nat
  position : Cell
  deriving DecidableEq, Repr

/-- `Food._generate_position`: `random.randint(0, w-1)`, `random.randint(0, h-1)`
realised on a raw draw pair as reduction mod the grid dimensions (producing
exactly the cells randint can produce). -/
def Food.generate_position (grid_w grid_h : Nat) (draw : Nat × Nat) : Cell :=
  ⟨(draw.1 % grid_w : Nat), (draw.2 % grid_h : Nat)⟩

/-- `Food.__init__(grid_w, grid_h)`: position is a fresh random cell, with no
check against any occupied set. -/
def Food.init (grid_w grid_h : Nat) (supply : Nat → Nat × Nat) : Food :=
  { grid_w := grid_w, grid_h := grid_h
    position := Food.generate_position grid_w grid_h (supply 0) }

/-- The `while True` loop of `Food.respawn`, unrolled with fuel: draw the
`k`-th candidate, exit when it avoids the occupied list, else loop.
`none` means the loop has not exited within `fuel` iterations. -/
def Food.respawn_go (grid_w grid_h : Nat) (supply : Nat → Nat × Nat)
    (snake_positions : List Cell) : Nat → Nat → Option Cell
  | _, 0 => none
  | k, fuel + 1 =>
    let c := Food.generate_position grid_w grid_h (supply k)
    if c ∈ snake_positions then
      Food.respawn_go grid_w grid_h supply snake_positions (k + 1) fuel
    else
      some c

/-- `Food.respawn(snake_positions)`: loop until the generated position is not
occupied; `none` when the loop does not exit within `fuel` iterations. -/
def Food.respawn (f : Food) (supply : Nat → Nat × Nat)
    (snake_positions : List Cell) (fuel : Nat) : Option Food :=
  match Food.respawn_go f.grid_w f.grid_h supply snake_positions 0 fuel with
  | some c => some { f with position := c }
  | none => none

/-- `Food.get_position`. -/
def Food.get_position (f : Food) : Cell :=
  f.position

/-- The `Game` class state: controller state, score, snake, food, and the
grid dimensions computed at construction. -/
structure Game where
  state : GameState
  score : Nat
  snake : Snake
  food : Food
  grid_w : Nat
  grid_h : Nat
  deriving DecidableEq, Repr

/-- `Game._reset_game`: fresh snake of length 1 at the grid centre facing
RIGHT, fresh food, score 0, state PLAYING. -/
def Game.reset_game (g : Game) (supply : Nat → Nat × Nat) : Game :=
  { g with
    snake := Snake.init (g.grid_w / 2 : Nat) (g.grid_h / 2 : Nat) g.grid_w g.grid_h
    food := Food.init g.grid_w g.grid_h supply
    score := 0
    state := .PLAYING }

/-- `Game.__init__`: sets `state = INSTRUCTIONS` and `score = 0`, then calls
`_reset_game` (which overwrites both).  The snake and food fields are `None`
in Python until `_reset_game` assigns them; here the record is completed by
`reset_game` in the same way. -/
def Game.init (grid_w grid_h : Nat) (supply : Nat → Nat × Nat) : Game :=
  Game.reset_game
    { state := .INSTRUCTIONS
      score := 0
      snake := Snake.init (grid_w / 2 : Nat) (grid_h / 2 : Nat) grid_w grid_h
      food := Food.init grid_w grid_h supply
      grid_w := grid_w
      grid_h := grid_h }
    supply

/-- The key presses the game logic distinguishes. -/
inductive Key where
  | SPACE
  | R
  | Q
  | ARROW_UP
  | ARROW_DOWN
  | ARROW_LEFT
  | ARROW_RIGHT
  | OTHER
  deriving DecidableEq, Repr

/-- `Game._handle_game_input`: map a movement key to `change_direction`
(WASD aliases collapse onto the arrow constructors). -/
def Game.handle_game_input (g : Game) (key : Key) : Game :=
  match key with
  | .ARROW_UP => { g with snake := g.snake.change_direction .UP }
  | .ARROW_DOWN => { g with snake := g.snake.change_direction .DOWN }
  | .ARROW_LEFT => { g with snake := g.snake.change_direction .LEFT }
  | .ARROW_RIGHT => { g with snake := g.snake.change_direction .RIGHT }
  | _ => g

/-- The KEYDOWN branch of `Game._handle_events`: SPACE starts from
INSTRUCTIONS, movement keys feed the snake while PLAYING, R restarts from
GAME_OVER (Q quits the process, outside the model). -/
def Game.handle_keydown (g : Game) (key : Key) (supply : Nat → Nat × Nat) : Game :=
  match g.state with
  | .INSTRUCTIONS => if key = .SPACE then { g with state := .PLAYING } else g
  | .PLAYING => g.handle_game_input key
  | .GAME_OVER => if key = .R then g.reset_game supply else g

/-- `Game._update_game`: no-op unless PLAYING; move the snake; on collision
go to GAME_OVER; on eating, arm growth, increment the score, respawn the
food.  `none` exactly when the respawn loop fails to exit within `fuel`. -/
def Game.update_game (g : Game) (supply : Nat → Nat × Nat) (fuel : Nat) : Option Game :=
  if g.state ≠ .PLAYING then
    some g
  else
    let s := g.snake.move
    if s.check_collision then
      some { g with snake := s, state := .GAME_OVER }
    else
      match s.body with
      | [] => some { g with snake := s }
      | hd :: _ =>
        if hd = g.food.get_position then
          let s2 := s.grow
          match (g.food.respawn supply s2.get_positions fuel) with
          | some f2 => some { g with snake := s2, score := g.score + 1, food := f2 }
          | none => none
        else
          some { g with snake := s }

/-- The opposite of a direction, as §3 of the specification defines it:
the direction whose delta is the negation. -/
def Direction.opposite : Direction → Direction
  | .UP => .DOWN
  | .DOWN => .UP
  | .LEFT => .RIGHT
  | .RIGHT => .LEFT

/-- Claim C2, counterexample: a freshly constructed snake has body length 1
and direction RIGHT, yet `change_direction LEFT` leaves the direction RIGHT —
the code blocks reversal with no length check, so a length-1 snake cannot
reverse, contrary to the claim. -/
theorem change_direction_len1_blocked_cex :
    (Snake.init 16 12 32 24).body.length = 1 ∧
    (Snake.init 16 12 32 24).direction = .RIGHT ∧
    ((Snake.init 16 12 32 24).change_direction .LEFT).direction = .RIGHT := by
  decide

/-- Claim C2, amended: `change_direction new_direction` leaves the direction
unchanged when `new_direction` is the exact opposite of the current
direction — regardless of body length — and updates it to `new_direction`
otherwise. -/
theorem change_direction_characterisation (s : Snake) (d : Direction) :
    (s.change_direction d).direction =
      if d = s.direction.opposite then s.direction else d := by
  obtain ⟨b, dir, gp, w, h⟩ := s
  cases dir <;> cases d <;> rfl

/-- Claim C10: `change_direction` modifies only the direction field — the
body and the growth flag are unchanged whether or not the change is
accepted. -/
theorem change_direction_frame (s : Snake) (d : Direction) :
    (s.change_direction d).body = s.body ∧
    (s.change_direction d).grow_pending = s.grow_pending := by
  unfold Snake.change_direction
  split <;> simp

/-- Claim C7: evaluation of the construction path at the failing input.
`Game.__init__` assigns `state = INSTRUCTIONS` and then calls `_reset_game`,
which assigns `state = PLAYING`; so every freshly constructed game is in
state PLAYING and the INSTRUCTIONS screen is unreachable, contradicting the
claimed initial state. -/
theorem game_init_state_playing (grid_w grid_h : Nat) (supply : Nat → Nat × Nat) :
    (Game.init grid_w grid_h supply).state = .PLAYING := rfl

/-- Claim C8: from any GAME_OVER state, the restart key produces a fresh
PLAYING session with score 0 and a length-1 snake at the grid's centre cell
facing RIGHT. -/
theorem restart_fresh_session (g : Game) (supply : Nat → Nat × Nat)
    (hstate : g.state = .GAME_OVER) :
    (g.handle_keydown .R supply).state = .PLAYING ∧
    (g.handle_keydown .R supply).score = 0 ∧
    (g.handle_keydown .R supply).snake.body =
      [⟨(g.grid_w / 2 : Nat), (g.grid_h / 2 : Nat)⟩] ∧
    (g.handle_keydown .R supply).snake.direction = .RIGHT := by
  unfold Game.handle_keydown
  rw [hstate]
  simp [Game.reset_game, Snake.init]

/-- Claim C8, witness: the restart theorem applied to a concrete 32 × 24
GAME_OVER state with score 7. -/
theorem restart_fresh_session_witness :
    (Game.handle_keydown
      { state := .GAME_OVER, score := 7
        snake := { body := [⟨3, 3⟩, ⟨2, 3⟩], direction := .UP,
                   grow_pending := false, grid_w := 32, grid_h := 24 }
        food := { grid_w := 32, grid_h := 24, position := ⟨5, 5⟩ }
        grid_w := 32, grid_h := 24 }
      .R (fun _ => (9, 9))).score = 0 :=
  (restart_fresh_session
    { state := .GAME_OVER, score := 7
      snake := { body := [⟨3, 3⟩, ⟨2, 3⟩], direction := .UP,
                 grow_pending := false, grid_w := 32, grid_h := 24 }
      food := { grid_w := 32, grid_h := 24, position := ⟨5, 5⟩ }
      grid_w := 32, grid_h := 24 }
    (fun _ => (9, 9)) rfl).2.1

/-- Any cell the respawn loop returns within its fuel budget avoids the
occupied list. -/
theorem respawn_go_avoids (grid_w grid_h : Nat) (supply : Nat → Nat × Nat)
    (occ : List Cell) (fuel : Nat) :
    ∀ k c, Food.respawn_go grid_w grid_h supply occ k fuel = some c → c ∉ occ := by
  induction fuel with
  | zero => intro k c h; exact absurd h (by simp [Food.respawn_go])
  | succ n ih =>
    intro k c h
    unfold Food.respawn_go at h
    by_cases hmem : Food.generate_position grid_w grid_h (supply k) ∈ occ
    · rw [if_pos hmem] at h
      exact ih (k + 1) c h
    · rw [if_neg hmem] at h
      cases h
      exact hmem

/-- Claim C1, counterexample: the session built by `Game.__init__` on the
32 × 24 grid, under a random draw of (16, 12), produces its initial food by
`Food.__init__` on the snake's own start cell — the constructor never
consults the snake, so the claimed spawn-time disjointness fails for the
session-start food. -/
theorem init_food_on_snake_cex :
    (Game.init 32 24 (fun _ => (16, 12))).food.get_position ∈
      (Game.init 32 24 (fun _ => (16, 12))).snake.get_positions := by
  decide

/-- Claim C1, amended: every food `Food.respawn` returns lies outside the
snake-position list it was given; the food created by `Food.__init__` at
session start is drawn from the whole grid with no such check and can lie
on the snake. -/
theorem respawn_food_avoids_snake (f : Food) (supply : Nat → Nat × Nat)
    (snake_positions : List Cell) (fuel : Nat) (f2 : Food)
    (h : f.respawn supply snake_positions fuel = some f2) :
    f2.position ∉ snake_positions := by
  unfold Food.respawn at h
  cases hgo : Food.respawn_go f.grid_w f.grid_h supply snake_positions 0 fuel with
  | none => rw [hgo] at h; cases h
  | some c =>
    rw [hgo] at h
    cases h
    exact respawn_go_avoids f.grid_w f.grid_h supply snake_positions fuel 0 c hgo

/-- Claim C1, witness: the respawn theorem applied to a concrete call that
returns a food at (1, 1) while (0, 0) is occupied. -/
theorem respawn_food_avoids_snake_witness :
    (⟨2, 2, ⟨1, 1⟩⟩ : Food).position ∉ [(⟨0, 0⟩ : Cell)] :=
  respawn_food_avoids_snake ⟨2, 2, ⟨0, 0⟩⟩ (fun _ => (1, 1)) [⟨0, 0⟩] 1
    ⟨2, 2, ⟨1, 1⟩⟩ rfl

/-- Claim C3: on a fully occupied board the `while True` loop of
`Food.respawn` never exits — on the 2 × 2 grid with all four cells occupied,
no iteration budget suffices, for any random draw supply and any start
index.  The code loops forever instead of returning NONE as the claim
requires. -/
theorem respawn_full_board_no_exit (supply : Nat → Nat × Nat) (fuel : Nat) :
    ∀ k, Food.respawn_go 2 2 supply
      [⟨0, 0⟩, ⟨1, 0⟩, ⟨0, 1⟩, ⟨1, 1⟩] k fuel = none := by
  induction fuel with
  | zero => intro k; rfl
  | succ n ih =>
    intro k
    have hmem : Food.generate_position 2 2 (supply k) ∈
        ([⟨0, 0⟩, ⟨1, 0⟩, ⟨0, 1⟩, ⟨1, 1⟩] : List Cell) := by
      have h1 : (supply k).1 % 2 = 0 ∨ (supply k).1 % 2 = 1 := by omega
      have h2 : (supply k).2 % 2 = 0 ∨ (supply k).2 % 2 = 1 := by
        omega
      rcases h1 with h1 | h1 <;> rcases h2 with h2 | h2 <;>
        simp [Food.generate_position, h1, h2]
    unfold Food.respawn_go
    rw [if_pos hmem]
    exact ih (k + 1)

/-- Unfolding of `Snake.move` on an empty body (never constructed by the
program). -/
theorem Snake.move_nil (s : Snake) (hb : s.body = []) : s.move = s := by
  obtain ⟨body, dir, gp, w, h⟩ := s
  simp only at hb
  subst hb
  rfl

/-- Unfolding of `Snake.move` when no growth is pending: prepend the new
head and drop the tail. -/
theorem Snake.move_eq_of_not_pending (s : Snake) (hd : Cell) (rest : List Cell)
    (hb : s.body = hd :: rest) (hp : s.grow_pending = false) :
    s.move = { s with body :=
      (⟨hd.x + s.direction.value.1, hd.y + s.direction.value.2⟩ : Cell) ::
        (hd :: rest).dropLast } := by
  obtain ⟨body, dir, gp, w, h⟩ := s
  simp only at hb hp ⊢
  subst hb
  subst hp
  simp [Snake.move, List.dropLast_cons₂]

/-- Unfolding of `Snake.move` when growth is pending: prepend the new head,
keep the tail, clear the flag. -/
theorem Snake.move_eq_of_pending (s : Snake) (hd : Cell) (rest : List Cell)
    (hb : s.body = hd :: rest) (hp : s.grow_pending = true) :
    s.move = { s with
      body := (⟨hd.x + s.direction.value.1, hd.y + s.direction.value.2⟩ : Cell) :: hd :: rest
      grow_pending := false } := by
  obtain ⟨body, dir, gp, w, h⟩ := s
  simp only at hb hp ⊢
  subst hb
  subst hp
  simp [Snake.move]

/-- Unfolding of `Snake.new_head` on a nonempty body. -/
theorem Snake.new_head_cons (s : Snake) (hd : Cell) (rest : List Cell)
    (hb : s.body = hd :: rest) :
    s.new_head = some ⟨hd.x + s.direction.value.1, hd.y + s.direction.value.2⟩ := by
  obtain ⟨body, dir, gp, w, h⟩ := s
  simp only at hb ⊢
  subst hb
  rfl

/-- The boolean collision check on a nonempty body, as a proposition. -/
theorem Snake.check_collision_iff (s : Snake) (hd : Cell) (rest : List Cell)
    (hb : s.body = hd :: rest) :
    s.check_collision = true ↔
      (hd.x < 0 ∨ hd.x ≥ (s.grid_w : Int) ∨ hd.y < 0 ∨ hd.y ≥ (s.grid_h : Int) ∨
        hd ∈ rest) := by
  obtain ⟨body, dir, gp, w, h⟩ := s
  simp only at hb ⊢
  subst hb
  simp only [Snake.check_collision]
  split
  · simp only [true_iff]
    tauto
  · split
    · simp only [true_iff]
      tauto
    · simp only [Bool.false_eq_true, false_iff]
      tauto

/-- The collision check on an empty body is false. -/
theorem Snake.check_collision_nil (s : Snake) (hb : s.body = []) :
    s.check_collision = false := by
  obtain ⟨body, dir, gp, w, h⟩ := s
  simp only at hb
  subst hb
  rfl

/-- One PLAYING tick that collides: the game records the moved snake and
switches to GAME_OVER, touching nothing else. -/
theorem Game.update_game_collision (g : Game) (supply : Nat → Nat × Nat) (fuel : Nat)
    (hstate : g.state = .PLAYING)
    (hcol : g.snake.move.check_collision = true) :
    g.update_game supply fuel =
      some { g with snake := g.snake.move, state := .GAME_OVER } := by
  simp only [Game.update_game, hstate, ne_eq, not_true_eq_false, if_false, hcol, if_true]

/-- One PLAYING tick with no collision and the moved head off the food: only
the snake changes. -/
theorem Game.update_game_no_eat (g : Game) (supply : Nat → Nat × Nat) (fuel : Nat)
    (hd : Cell) (rest : List Cell)
    (hstate : g.state = .PLAYING)
    (hcol : g.snake.move.check_collision = false)
    (hb : g.snake.move.body = hd :: rest)
    (hf : hd ≠ g.food.get_position) :
    g.update_game supply fuel = some { g with snake := g.snake.move } := by
  simp only [Game.update_game, hstate, ne_eq, not_true_eq_false, if_false, hcol,
    Bool.false_eq_true, hb, hf, if_neg]

/-- One PLAYING tick in which the moved head lands on the food and the
respawn loop exits: growth is armed, the score increments, the food is
replaced. -/
theorem Game.update_game_eat (g : Game) (supply : Nat → Nat × Nat) (fuel : Nat)
    (hd : Cell) (rest : List Cell) (f2 : Food)
    (hstate : g.state = .PLAYING)
    (hcol : g.snake.move.check_collision = false)
    (hb : g.snake.move.body = hd :: rest)
    (hf : hd = g.food.get_position)
    (hr : g.food.respawn supply g.snake.move.grow.get_positions fuel = some f2) :
    g.update_game supply fuel =
      some { g with snake := g.snake.move.grow, score := g.score + 1, food := f2 } := by
  simp only [Game.update_game, hstate, ne_eq, not_true_eq_false, if_false, hcol,
    Bool.false_eq_true, hb, hf, if_pos, hr]

/-- One PLAYING tick in which the moved head lands on the food but the
respawn loop does not exit within its fuel. -/
theorem Game.update_game_eat_stuck (g : Game) (supply : Nat → Nat × Nat) (fuel : Nat)
    (hd : Cell) (rest : List Cell)
    (hstate : g.state = .PLAYING)
    (hcol : g.snake.move.check_collision = false)
    (hb : g.snake.move.body = hd :: rest)
    (hf : hd = g.food.get_position)
    (hr : g.food.respawn supply g.snake.move.grow.get_positions fuel = none) :
    g.update_game supply fuel = none := by
  simp only [Game.update_game, hstate, ne_eq, not_true_eq_false, if_false, hcol,
    Bool.false_eq_true, hb, hf, if_pos, hr]

/-- One PLAYING tick on the (unreachable) empty body: only the snake field
is rewritten. -/
theorem Game.update_game_nil (g : Game) (supply : Nat → Nat × Nat) (fuel : Nat)
    (hstate : g.state = .PLAYING)
    (hcol : g.snake.move.check_collision = false)
    (hb : g.snake.move.body = []) :
    g.update_game supply fuel = some { g with snake := g.snake.move } := by
  simp only [Game.update_game, hstate, ne_eq, not_true_eq_false, if_false, hcol,
    Bool.false_eq_true, hb]

/-- Claim C5: the post-move collision check is exact.  A snake of body
length at least 3 whose move leaves the head on a cell still occupied by a
later body segment reports a collision; a non-growing move of a duplicate-
free, in-bounds snake whose new head is exactly the cell its tail vacates
on that move reports none — the tail is popped before the check. -/
theorem self_collision_exact (s : Snake) :
    (∀ hd rest, 3 ≤ s.body.length → s.move.body = hd :: rest → hd ∈ rest →
      s.move.check_collision = true) ∧
    (s.grow_pending = false → s.body.Nodup →
      (∀ c ∈ s.body, 0 ≤ c.x ∧ c.x < (s.grid_w : Int) ∧ 0 ≤ c.y ∧ c.y < (s.grid_h : Int)) →
      s.new_head = s.body.getLast? →
      s.move.check_collision = false) := by
  constructor
  · intro hd rest _hlen hb hmem
    rw [Snake.check_collision_iff s.move hd rest hb]
    tauto
  · intro hp hnd hin hlast
    cases hb : s.body with
    | nil =>
      rw [Snake.move_nil s hb]
      exact Snake.check_collision_nil s hb
    | cons hd rest =>
      have hne : (hd :: rest : List Cell) ≠ [] := by simp
      have hmove := Snake.move_eq_of_not_pending s hd rest hb hp
      have hlast2 :
          (⟨hd.x + s.direction.value.1, hd.y + s.direction.value.2⟩ : Cell) =
            (hd :: rest).getLast hne := by
        rw [Snake.new_head_cons s hd rest hb, hb,
          List.getLast?_eq_getLast _ hne] at hlast
        exact Option.some.inj hlast
      have hmemb : (hd :: rest).getLast hne ∈ s.body := by
        rw [hb]
        exact List.getLast_mem hne
      obtain ⟨hx0, hxw, hy0, hyh⟩ := hin _ hmemb
      have hbody2 : s.move.body =
          (⟨hd.x + s.direction.value.1, hd.y + s.direction.value.2⟩ : Cell) ::
            (hd :: rest).dropLast := by
        rw [hmove]
      have hw2 : s.move.grid_w = s.grid_w := by rw [hmove]
      have hh2 : s.move.grid_h = s.grid_h := by rw [hmove]
      rw [← Bool.not_eq_true, Snake.check_collision_iff s.move _ _ hbody2, hw2, hh2]
      push_neg
      rw [hlast2]
      refine ⟨by omega, by omega, by omega, by omega, ?_⟩
      intro hmem2
      rw [hb, ← List.dropLast_append_getLast hne] at hnd
      exact (List.nodup_append.mp hnd).2.2 hmem2 (List.mem_singleton.mpr rfl)

/-- Claim C5, witness: a length-5 snake biting its own still-occupied
segment reports a collision; a length-2 snake stepping onto the cell its
tail vacates reports none. -/
theorem self_collision_exact_witness :
    ({ body := [⟨2, 2⟩, ⟨3, 2⟩, ⟨3, 3⟩, ⟨2, 3⟩, ⟨1, 3⟩], direction := .DOWN,
       grow_pending := false, grid_w := 32, grid_h := 24 } : Snake).move.check_collision
      = true ∧
    ({ body := [⟨0, 0⟩, ⟨1, 0⟩], direction := .RIGHT,
       grow_pending := false, grid_w := 32, grid_h := 24 } : Snake).move.check_collision
      = false :=
  ⟨(self_collision_exact
      { body := [⟨2, 2⟩, ⟨3, 2⟩, ⟨3, 3⟩, ⟨2, 3⟩, ⟨1, 3⟩], direction := .DOWN,
        grow_pending := false, grid_w := 32, grid_h := 24 }).1
      ⟨2, 3⟩ [⟨2, 2⟩, ⟨3, 2⟩, ⟨3, 3⟩, ⟨2, 3⟩] (by decide) (by decide) (by decide),
   (self_collision_exact
      { body := [⟨0, 0⟩, ⟨1, 0⟩], direction := .RIGHT,
        grow_pending := false, grid_w := 32, grid_h := 24 }).2
      rfl (by decide) (by decide) (by decide)⟩

/-- Claim C6, counterexample: the specification's own scenario — a length-1
snake at (4, 2) of the 5 × 5 grid moving RIGHT — collides, and the stored
snake after the tick is the moved one, body [(5, 2)]: the snake component of
the session state IS changed by the colliding tick, so "all other session
state is unchanged" fails for the snake. -/
theorem collision_tick_snake_moved_cex :
    ({ state := .PLAYING, score := 3
       snake := { body := [⟨4, 2⟩], direction := .RIGHT, grow_pending := false,
                  grid_w := 5, grid_h := 5 }
       food := { grid_w := 5, grid_h := 5, position := ⟨0, 0⟩ }
       grid_w := 5, grid_h := 5 } : Game).update_game (fun _ => (0, 0)) 1 =
      some { state := .GAME_OVER, score := 3
             snake := { body := [⟨5, 2⟩], direction := .RIGHT, grow_pending := false,
                        grid_w := 5, grid_h := 5 }
             food := { grid_w := 5, grid_h := 5, position := ⟨0, 0⟩ }
             grid_w := 5, grid_h := 5 } ∧
    ({ body := [⟨5, 2⟩], direction := .RIGHT, grow_pending := false,
       grid_w := 5, grid_h := 5 } : Snake).body ≠
      ({ body := [⟨4, 2⟩], direction := .RIGHT, grow_pending := false,
         grid_w := 5, grid_h := 5 } : Snake).body := by
  refine ⟨by decide, by decide⟩

/-- Claim C6, amended: a PLAYING tick whose move collides switches the state
to GAME_OVER and leaves the score and the food untouched — even when the
colliding head is on the food cell, since the collision branch returns
before the food branch runs; the snake, however, is stored as the moved
snake (the move precedes the check). -/
theorem collision_tick_frame (g g2 : Game) (supply : Nat → Nat × Nat) (fuel : Nat)
    (hstate : g.state = .PLAYING)
    (hcol : g.snake.move.check_collision = true)
    (hu : g.update_game supply fuel = some g2) :
    g2.state = .GAME_OVER ∧ g2.score = g.score ∧ g2.food = g.food ∧
    g2.snake = g.snake.move := by
  rw [Game.update_game_collision g supply fuel hstate hcol] at hu
  cases hu
  exact ⟨rfl, rfl, rfl, rfl⟩

/-- Claim C6, witness: the specification's scenario — a length-1 snake at
the right edge of the 5 × 5 grid moving RIGHT — applied through the frame
theorem: GAME_OVER, score still 3, food still at (0, 0). -/
theorem collision_tick_frame_witness :
    ({ state := .GAME_OVER, score := 3
       snake := { body := [⟨5, 2⟩], direction := .RIGHT, grow_pending := false,
                  grid_w := 5, grid_h := 5 }
       food := { grid_w := 5, grid_h := 5, position := ⟨0, 0⟩ }
       grid_w := 5, grid_h := 5 } : Game).state = .GAME_OVER ∧
    ({ state := .GAME_OVER, score := 3
       snake := { body := [⟨5, 2⟩], direction := .RIGHT, grow_pending := false,
                  grid_w := 5, grid_h := 5 }
       food := { grid_w := 5, grid_h := 5, position := ⟨0, 0⟩ }
       grid_w := 5, grid_h := 5 } : Game).score =
      ({ state := .PLAYING, score := 3
         snake := { body := [⟨4, 2⟩], direction := .RIGHT, grow_pending := false,
                    grid_w := 5, grid_h := 5 }
         food := { grid_w := 5, grid_h := 5, position := ⟨0, 0⟩ }
         grid_w := 5, grid_h := 5 } : Game).score ∧
    ({ state := .GAME_OVER, score := 3
       snake := { body := [⟨5, 2⟩], direction := .RIGHT, grow_pending := false,
                  grid_w := 5, grid_h := 5 }
       food := { grid_w := 5, grid_h := 5, position := ⟨0, 0⟩ }
       grid_w := 5, grid_h := 5 } : Game).food =
      ({ state := .PLAYING, score := 3
         snake := { body := [⟨4, 2⟩], direction := .RIGHT, grow_pending := false,
                    grid_w := 5, grid_h := 5 }
         food := { grid_w := 5, grid_h := 5, position := ⟨0, 0⟩ }
         grid_w := 5, grid_h := 5 } : Game).food ∧
    ({ state := .GAME_OVER, score := 3
       snake := { body := [⟨5, 2⟩], direction := .RIGHT, grow_pending := false,
                  grid_w := 5, grid_h := 5 }
       food := { grid_w := 5, grid_h := 5, position := ⟨0, 0⟩ }
       grid_w := 5, grid_h := 5 } : Game).snake =
      ({ state := .PLAYING, score := 3
         snake := { body := [⟨4, 2⟩], direction := .RIGHT, grow_pending := false,
                    grid_w := 5, grid_h := 5 }
         food := { grid_w := 5, grid_h := 5, position := ⟨0, 0⟩ }
         grid_w := 5, grid_h := 5 } : Game).snake.move :=
  collision_tick_frame
    { state := .PLAYING, score := 3
      snake := { body := [⟨4, 2⟩], direction := .RIGHT, grow_pending := false,
                 grid_w := 5, grid_h := 5 }
      food := { grid_w := 5, grid_h := 5, position := ⟨0, 0⟩ }
      grid_w := 5, grid_h := 5 }
    { state := .GAME_OVER, score := 3
      snake := { body := [⟨5, 2⟩], direction := .RIGHT, grow_pending := false,
                 grid_w := 5, grid_h := 5 }
      food := { grid_w := 5, grid_h := 5, position := ⟨0, 0⟩ }
      grid_w := 5, grid_h := 5 }
    (fun _ => (0, 0)) 1 rfl (by decide) (by decide)

/-- Claim C9: across one PLAYING tick the score is non-decreasing, changes
by 0 or by exactly 1, and changes by 1 precisely when the moved snake's head
is on the food cell and no collision occurred on that tick. -/
theorem score_step (g g2 : Game) (supply : Nat → Nat × Nat) (fuel : Nat)
    (hstate : g.state = .PLAYING)
    (hu : g.update_game supply fuel = some g2) :
    g.score ≤ g2.score ∧
    (g2.score = g.score ∨ g2.score = g.score + 1) ∧
    (g2.score = g.score + 1 ↔
      (g.snake.move.check_collision = false ∧
       g.snake.move.get_positions.head? = some g.food.get_position)) := by
  by_cases hcol : g.snake.move.check_collision = true
  · rw [Game.update_game_collision g supply fuel hstate hcol] at hu
    cases hu
    refine ⟨le_refl _, Or.inl rfl, ?_⟩
    constructor
    · intro habs
      simp at habs
    · rintro ⟨hc, _⟩
      rw [hcol] at hc
      cases hc
  · have hcol2 : g.snake.move.check_collision = false := by
      cases h : g.snake.move.check_collision
      · rfl
      · exact absurd h hcol
    cases hb : g.snake.move.body with
    | nil =>
      rw [Game.update_game_nil g supply fuel hstate hcol2 hb] at hu
      cases hu
      refine ⟨le_refl _, Or.inl rfl, ?_⟩
      constructor
      · intro habs
        simp at habs
      · rintro ⟨_, hh⟩
        simp only [Snake.get_positions, hb] at hh
        cases hh
    | cons hd rest =>
      by_cases hf : hd = g.food.get_position
      · cases hr : g.food.respawn supply g.snake.move.grow.get_positions fuel with
        | none =>
          rw [Game.update_game_eat_stuck g supply fuel hd rest hstate hcol2 hb hf hr] at hu
          cases hu
        | some f2 =>
          rw [Game.update_game_eat g supply fuel hd rest f2 hstate hcol2 hb hf hr] at hu
          cases hu
          refine ⟨Nat.le_succ _, Or.inr rfl, ?_⟩
          constructor
          · intro _
            refine ⟨hcol2, ?_⟩
            simp only [Snake.get_positions, hb, List.head?_cons]
            exact congrArg some hf
          · intro _
            rfl
      · rw [Game.update_game_no_eat g supply fuel hd rest hstate hcol2 hb hf] at hu
        cases hu
        refine ⟨le_refl _, Or.inl rfl, ?_⟩
        constructor
        · intro habs
          simp at habs
        · rintro ⟨_, hh⟩
          simp only [Snake.get_positions, hb, List.head?_cons] at hh
          exact absurd (Option.some.inj hh) hf

/-- Claim C9, witness: the score-step theorem applied to a fresh 32 × 24
session whose first tick eats the food at (17, 12): the score goes from 0
to 1 and the iff's right side holds. -/
theorem score_step_witness :
    (Game.init 32 24 (fun _ => (17, 12))).score ≤ 1 ∧
    ((1 : Nat) = (Game.init 32 24 (fun _ => (17, 12))).score ∨
      (1 : Nat) = (Game.init 32 24 (fun _ => (17, 12))).score + 1) :=
  have h := score_step (Game.init 32 24 (fun _ => (17, 12)))
    { state := .PLAYING, score := 1
      snake := { body := [⟨17, 12⟩], direction := .RIGHT, grow_pending := true,
                 grid_w := 32, grid_h := 24 }
      food := { grid_w := 32, grid_h := 24, position := ⟨18, 12⟩ }
      grid_w := 32, grid_h := 24 }
    (fun _ => (18, 12)) 1 rfl (by decide)
  ⟨h.1, h.2.1⟩

/-- Claim C4, counterexample: a session started on the 32 × 24 grid with
food at (17, 12) eats on its first tick (arming growth), the food respawns
at (18, 12), and the second tick both consumes the pending growth and eats
again — so the tick in which the head reaches the food changes the body
length from 1 to 2, against the claim. -/
theorem growth_same_tick_cex :
    (Game.init 32 24 (fun _ => (17, 12))).update_game (fun _ => (18, 12)) 1 =
      some { state := .PLAYING, score := 1
             snake := { body := [⟨17, 12⟩], direction := .RIGHT, grow_pending := true,
                        grid_w := 32, grid_h := 24 }
             food := { grid_w := 32, grid_h := 24, position := ⟨18, 12⟩ }
             grid_w := 32, grid_h := 24 } ∧
    ({ state := .PLAYING, score := 1
       snake := { body := [⟨17, 12⟩], direction := .RIGHT, grow_pending := true,
                  grid_w := 32, grid_h := 24 }
       food := { grid_w := 32, grid_h := 24, position := ⟨18, 12⟩ }
       grid_w := 32, grid_h := 24 } : Game).snake.move.get_positions.head? =
      some ({ state := .PLAYING, score := 1
              snake := { body := [⟨17, 12⟩], direction := .RIGHT, grow_pending := true,
                         grid_w := 32, grid_h := 24 }
              food := { grid_w := 32, grid_h := 24, position := ⟨18, 12⟩ }
              grid_w := 32, grid_h := 24 } : Game).food.get_position ∧
    (({ state := .PLAYING, score := 1
        snake := { body := [⟨17, 12⟩], direction := .RIGHT, grow_pending := true,
                   grid_w := 32, grid_h := 24 }
        food := { grid_w := 32, grid_h := 24, position := ⟨18, 12⟩ }
        grid_w := 32, grid_h := 24 } : Game).update_game (fun _ => (0, 0)) 1).map
      (fun g2 => g2.snake.body.length) = some 2 ∧
    ({ state := .PLAYING, score := 1
       snake := { body := [⟨17, 12⟩], direction := .RIGHT, grow_pending := true,
                  grid_w := 32, grid_h := 24 }
       food := { grid_w := 32, grid_h := 24, position := ⟨18, 12⟩ }
       grid_w := 32, grid_h := 24 } : Game).snake.body.length = 1 := by
  refine ⟨by decide, by decide, by decide, by decide⟩

/-- Claim C4, amended: when no growth is already pending at the start of the
tick (food was not eaten on the immediately preceding tick), a PLAYING tick
whose moved head reaches the food leaves the body length unchanged and arms
the growth flag, and the immediately following move lengthens the body by
exactly 1 and clears the flag. -/
theorem growth_next_move (g g2 : Game) (supply : Nat → Nat × Nat) (fuel : Nat)
    (hstate : g.state = .PLAYING)
    (hpend : g.snake.grow_pending = false)
    (hcol : g.snake.move.check_collision = false)
    (heat : g.snake.move.get_positions.head? = some g.food.get_position)
    (hu : g.update_game supply fuel = some g2) :
    g2.snake.body.length = g.snake.body.length ∧
    g2.snake.grow_pending = true ∧
    g2.snake.move.body.length = g2.snake.body.length + 1 ∧
    g2.snake.move.grow_pending = false := by
  cases hb0 : g.snake.body with
  | nil =>
    rw [Snake.move_nil g.snake hb0] at heat
    simp only [Snake.get_positions, hb0] at heat
    cases heat
  | cons h0 r0 =>
    have hmove := Snake.move_eq_of_not_pending g.snake h0 r0 hb0 hpend
    have hb : g.snake.move.body =
        (⟨h0.x + g.snake.direction.value.1, h0.y + g.snake.direction.value.2⟩ : Cell) ::
          (h0 :: r0).dropLast := by
      rw [hmove]
    have hf :
        (⟨h0.x + g.snake.direction.value.1, h0.y + g.snake.direction.value.2⟩ : Cell) =
          g.food.get_position := by
      simp only [Snake.get_positions, hb, List.head?_cons] at heat
      exact Option.some.inj heat
    cases hr : g.food.respawn supply g.snake.move.grow.get_positions fuel with
    | none =>
      rw [Game.update_game_eat_stuck g supply fuel _ _ hstate hcol hb hf hr] at hu
      cases hu
    | some f2 =>
      rw [Game.update_game_eat g supply fuel _ _ f2 hstate hcol hb hf hr] at hu
      cases hu
      have hgrow_body : g.snake.move.grow.body = g.snake.move.body := rfl
      refine ⟨?_, rfl, ?_, ?_⟩
      · show g.snake.move.grow.body.length = (h0 :: r0).length
        rw [hgrow_body, hb]
        simp [List.length_dropLast]
      · show g.snake.move.grow.move.body.length = g.snake.move.grow.body.length + 1
        have hb2 : g.snake.move.grow.body =
            (⟨h0.x + g.snake.direction.value.1, h0.y + g.snake.direction.value.2⟩ : Cell) ::
              (h0 :: r0).dropLast := by
          rw [hgrow_body, hb]
        have hp2 : g.snake.move.grow.grow_pending = true := rfl
        rw [Snake.move_eq_of_pending _ _ _ hb2 hp2]
        simp [hb2]
      · show g.snake.move.grow.move.grow_pending = false
        have hb2 : g.snake.move.grow.body =
            (⟨h0.x + g.snake.direction.value.1, h0.y + g.snake.direction.value.2⟩ : Cell) ::
              (h0 :: r0).dropLast := by
          rw [hgrow_body, hb]
        rw [Snake.move_eq_of_pending _ _ _ hb2 rfl]

/-- Claim C4 (amended), witness: the growth theorem applied to the first
tick of a fresh 32 × 24 session whose food sits directly in the snake's
path at (17, 12). -/
theorem growth_next_move_witness :
    ({ state := .PLAYING, score := 1
       snake := { body := [⟨17, 12⟩], direction := .RIGHT, grow_pending := true,
                  grid_w := 32, grid_h := 24 }
       food := { grid_w := 32, grid_h := 24, position := ⟨18, 12⟩ }
       grid_w := 32, grid_h := 24 } : Game).snake.body.length =
      (Game.init 32 24 (fun _ => (17, 12))).snake.body.length ∧
    ({ state := .PLAYING, score := 1
       snake := { body := [⟨17, 12⟩], direction := .RIGHT, grow_pending := true,
                  grid_w := 32, grid_h := 24 }
       food := { grid_w := 32, grid_h := 24, position := ⟨18, 12⟩ }
       grid_w := 32, grid_h := 24 } : Game).snake.grow_pending = true ∧
    ({ state := .PLAYING, score := 1
       snake := { body := [⟨17, 12⟩], direction := .RIGHT, grow_pending := true,
                  grid_w := 32, grid_h := 24 }
       food := { grid_w := 32, grid_h := 24, position := ⟨18, 12⟩ }
       grid_w := 32, grid_h := 24 } : Game).snake.move.body.length =
      ({ state := .PLAYING, score := 1
         snake := { body := [⟨17, 12⟩], direction := .RIGHT, grow_pending := true,
                    grid_w := 32, grid_h := 24 }
         food := { grid_w := 32, grid_h := 24, position := ⟨18, 12⟩ }
         grid_w := 32, grid_h := 24 } : Game).snake.body.length + 1 ∧
    ({ state := .PLAYING, score := 1
       snake := { body := [⟨17, 12⟩], direction := .RIGHT, grow_pending := true,
                  grid_w := 32, grid_h := 24 }
       food := { grid_w := 32, grid_h := 24, position := ⟨18, 12⟩ }
       grid_w := 32, grid_h := 24 } : Game).snake.move.grow_pending = false :=
  growth_next_move (Game.init 32 24 (fun _ => (17, 12)))
    { state := .PLAYING, score := 1
      snake := { body := [⟨17, 12⟩], direction := .RIGHT, grow_pending := true,
                 grid_w := 32, grid_h := 24 }
      food := { grid_w := 32, grid_h := 24, position := ⟨18, 12⟩ }
      grid_w := 32, grid_h := 24 }
    (fun _ => (18, 12)) 1 rfl rfl (by decide) (by decide) (by decide)

end SnakeGame
